import Mathlib

set_option maxHeartbeats 1000000

namespace NexCLI

/-- Role of a conversation message, mirroring the role strings of the
`CoreMessage` type used by `src/index.ts` (`user`, `assistant`, `system`,
`tool`; tool-call messages travel under the `assistant` role and tool-result
messages under the `tool` role in the underlying transcript format). -/
inductive Role where
  | user
  | assistant
  | system
  | tool
  deriving DecidableEq, Repr

/-- One message of the conversation history (`CoreMessage` in the source).
`content` abstracts both plain text and serialized structured tool payloads. -/
structure Message where
  role : Role
  content : String
  deriving DecidableEq, Repr

/-- A tool call reported in a step of the generation call
(`step.toolCalls` element in `src/index.ts`): the tool's name and its
arguments, kept in serialized form since the source only ever
`JSON.stringify`s them. -/
structure ToolCall where
  toolName : String
  args : String
  deriving DecidableEq, Repr

/-- A tool result reported in a step (`step.toolResults` element).
`outputIsError` models the boolean `result.output?.isError || false` of
`src/index.ts` line 109; `output` is the serialized result payload. -/
structure ToolResult where
  outputIsError : Bool
  output : String
  deriving DecidableEq, Repr

/-- One internal step of the generation call as delivered to the
`onStepFinish` callback in `src/index.ts`. -/
structure Step where
  toolCalls : List ToolCall
  toolResults : List ToolResult
  deriving DecidableEq, Repr

/-- A value thrown by an awaited external call, as the `catch` blocks of
`src/index.ts` distinguish it: either an `Error` instance carrying a
`message`, or any other thrown value (`error instanceof Error` false). -/
inductive GenError where
  | errorInstance (message : String)
  | nonError
  deriving DecidableEq, Repr

/-- The successful result of the external `generateText` call as used by
`src/index.ts`: the final text (`result.text`, the empty string standing for
absent text so that `result.text || fallback` takes the fallback), the
authoritative response transcript (`result.response.messages`) and the
reported steps. -/
structure GenResult where
  text : String
  responseMessages : List Message
  steps : List Step
  deriving DecidableEq, Repr

/-- Models `stepCountIs(n)` of the `ai` library: the stop condition passed as
`stopWhen`, true exactly when the number of completed steps reaches `n`. -/
def stepCountIs (n : Nat) : Nat → Bool :=
  fun stepCount => stepCount == n

/-- The request `sendMessage` hands to the external `generateText` call:
system prompt, full message history, the tool mapping (modelled by its list
of tool names, the keys of `Record<string, unknown>`), and the stop
condition. -/
structure GenRequest where
  system : String
  messages : List Message
  tools : List String
  stopWhen : Nat → Bool

/-- The constant `MAX_STEPS` of `src/index.ts` line 13. -/
def MAX_STEPS : Nat := 10

/-- The constant `SYSTEM_PROMPT` of `src/index.ts` line 14. -/
def SYSTEM_PROMPT : String :=
  "You are a helpful assistant. When you use tools to gather information, always provide a clear, conversational response to the user based on the tool results."

/-- The mutable fields of the `ChatCLI` class of `src/index.ts` that the
session logic reads or writes: the conversation history, the API key, the
MCP client handle (`null` before a successful connect, modelled as
`Option`), the tool mapping (modelled by its list of names) and the debug
flag. -/
structure ChatCLI where
  conversationHistory : List Message
  apiKey : String
  mcpClient : Option Unit
  mcpTools : List String
  debugMode : Bool
  deriving Repr

/-- The state the `ChatCLI` constructor produces: empty history, the given
API key (from the environment or prompt), no MCP client, empty tool
mapping, the given debug flag. -/
def mkChatCLI (apiKey : String) (debugMode : Bool) : ChatCLI :=
  { conversationHistory := []
    apiKey := apiKey
    mcpClient := none
    mcpTools := []
    debugMode := debugMode }

/-- The private `log` method of `ChatCLI`: prints its message only in debug
mode. Console output is modelled as the list of lines printed. -/
def log (debugMode : Bool) (message : String) : List String :=
  if debugMode then [message] else []

/-- The `onStepFinish` callback of `sendMessage` (`src/index.ts` lines
100-118), returning the list of console lines it prints for one step given
the debug flag: a visible line naming each proposed tool, the serialized
arguments only via `log`; a visible failure line for each errored tool
result with the serialized payload only via `log`; and a success line for a
non-errored tool result only via `log`. -/
def onStepFinish (debugMode : Bool) (step : Step) : List String :=
  (if step.toolCalls.length > 0 then
    (step.toolCalls.map (fun call =>
      ["\n[Using tool: " ++ call.toolName ++ "]"] ++
        log debugMode ("[Args: " ++ call.args ++ "]"))).flatten
  else []) ++
  (if step.toolResults.length > 0 then
    (step.toolResults.map (fun result =>
      if result.outputIsError then
        ["[Tool failed]"] ++ log debugMode ("[Error: " ++ result.output ++ "]")
      else
        log debugMode "[Tool completed successfully]")).flatten
  else [])

/-- The first effect of `sendMessage`: pushing the user message onto the
conversation history (`src/index.ts` lines 86-89). -/
def pushUser (st : ChatCLI) (userMessage : String) : ChatCLI :=
  { st with conversationHistory :=
      st.conversationHistory ++ [{ role := Role.user, content := userMessage }] }

/-- The generation request `sendMessage` builds from the current state
(`src/index.ts` lines 94-99): the system prompt, the whole history, the
frozen tool mapping, and `stopWhen := stepCountIs MAX_STEPS`. -/
def mkRequest (st : ChatCLI) : GenRequest :=
  { system := SYSTEM_PROMPT
    messages := st.conversationHistory
    tools := st.mcpTools
    stopWhen := stepCountIs MAX_STEPS }

/-- The `sendMessage` method (`src/index.ts` lines 85-131), with the external
`generateText` call abstracted as the oracle `gen`. Returns the new state,
the string returned to the caller, and the console lines printed by the
per-step callback. On success the history is reassigned wholesale to
`result.response.messages` and the text (or the literal fallback when it is
empty) is returned; on a thrown failure the pushed user message stays in the
history and an error string is returned, `Error: <message>` for an `Error`
instance and the literal `An unknown error occurred.` otherwise. -/
def sendMessage (gen : GenRequest → Except GenError GenResult)
    (st : ChatCLI) (userMessage : String) : ChatCLI × String × List String :=
  let st1 := pushUser st userMessage
  match gen (mkRequest st1) with
  | Except.ok result =>
      ({ st1 with conversationHistory := result.responseMessages },
        (if result.text = "" then "No response generated." else result.text),
        (result.steps.map (onStepFinish st1.debugMode)).flatten)
  | Except.error e =>
      (st1,
        (match e with
          | GenError.errorInstance msg => "Error: " ++ msg
          | GenError.nonError => "An unknown error occurred."),
        [])

/-- Outcome of the awaited external calls inside `initializeMCP` of
`src/index.ts`: the client creation may throw, the subsequent `tools()` call
may throw after the client handle was already assigned, or both succeed
yielding the discovered tool mapping. -/
inductive MCPOutcome where
  | connectFailed (e : GenError)
  | toolsFailed (e : GenError)
  | connected (tools : List String)
  deriving Repr

/-- The console lines of the `catch` block of `initializeMCP`
(`src/index.ts` lines 70-76): the warning, the error message only when the
thrown value is an `Error` instance, and the continuation notice. -/
def mcpFailureLogs (e : GenError) : List String :=
  ["Warning: Could not connect to Civic MCP server."] ++
  (match e with
    | GenError.errorInstance msg => ["Error: " ++ msg ++ "\n"]
    | GenError.nonError => []) ++
  ["Continuing without MCP tools...\n"]

/-- The `initializeMCP` method (`src/index.ts` lines 51-77) with the two
awaited external calls abstracted into `MCPOutcome`. On success it assigns
the client handle and the tool mapping; on any failure it leaves the tool
mapping untouched (still the constructor's empty mapping) and logs the
warning lines. Returns the new state and the console lines printed. -/
def initMCP (outcome : MCPOutcome) (st : ChatCLI) : ChatCLI × List String :=
  match outcome with
  | MCPOutcome.connected tools =>
      ({ st with mcpClient := some (), mcpTools := tools },
        ["Connecting to Civic MCP server...",
          "Connected! Loaded " ++ toString tools.length ++ " tools from Civic MCP.\n"])
  | MCPOutcome.connectFailed e =>
      (st, ["Connecting to Civic MCP server..."] ++ mcpFailureLogs e)
  | MCPOutcome.toolsFailed e =>
      ({ st with mcpClient := some () },
        ["Connecting to Civic MCP server..."] ++ mcpFailureLogs e)

/-- Models JavaScript `String.prototype.trim` as used via `answer.trim()` in
`getUserInput` (`src/index.ts` line 46): drops leading and trailing
whitespace characters. -/
def jsTrim (s : String) : String :=
  ⟨((s.data.dropWhile Char.isWhitespace).reverse.dropWhile Char.isWhitespace).reverse⟩

/-- Models JavaScript `String.prototype.toLowerCase` as used on the trimmed
input in `start` (`src/index.ts` line 151): lowercases every character. -/
def jsToLower (s : String) : String :=
  ⟨s.data.map Char.toLower⟩

/-- Observable outcome of one iteration of the `while (true)` loop in
`start` (`src/index.ts` lines 148-168): the state afterwards, the console
lines printed, whether the readline interface was closed, whether the MCP
client was closed, whether a generation call was issued, and whether the
loop exited via `break`. -/
structure IterResult where
  state : ChatCLI
  output : List String
  rlClosed : Bool
  mcpClosed : Bool
  genCalled : Bool
  exited : Bool
  deriving Repr

/-- One iteration of the main loop of `start` on a raw input line: the line
is trimmed by `getUserInput`; a case-insensitive `exit`/`quit` closes the
readline interface, closes the MCP client exactly when its handle is
non-null, and breaks; an empty trimmed line does nothing and continues;
anything else is sent to `sendMessage` and the reply printed as
`Assistant:` output. -/
def loopIter (gen : GenRequest → Except GenError GenResult)
    (st : ChatCLI) (rawInput : String) : IterResult :=
  let userInput := jsTrim rawInput
  if jsToLower userInput = "exit" ∨ jsToLower userInput = "quit" then
    { state := st
      output := ["\nGoodbye!"]
      rlClosed := true
      mcpClosed := st.mcpClient.isSome
      genCalled := false
      exited := true }
  else if userInput = "" then
    { state := st
      output := []
      rlClosed := false
      mcpClosed := false
      genCalled := false
      exited := false }
  else
    let r := sendMessage gen st userInput
    { state := r.1
      output := r.2.2 ++ ["\nAssistant: " ++ r.2.1 ++ "\n"]
      rlClosed := false
      mcpClosed := false
      genCalled := true
      exited := false }

/-- The main loop run over a script of raw input lines, stopping early when
an iteration exits. -/
def runLoop (gen : GenRequest → Except GenError GenResult) :
    ChatCLI → List String → ChatCLI
  | st, [] => st
  | st, raw :: rest =>
      let r := loopIter gen st raw
      if r.exited then r.state else runLoop gen r.state rest

/-- A sequence of `sendMessage` turns (the non-empty, non-exit path of the
loop), used to speak about the history after `n` turns. -/
def runSends (gen : GenRequest → Except GenError GenResult) :
    ChatCLI → List String → ChatCLI
  | st, [] => st
  | st, m :: ms => runSends gen (sendMessage gen st m).1 ms

/-- The transcript the oracle returns for the request `sendMessage` builds
from state `st` and user message `msg` (the empty list when the call
fails). -/
def transcriptOf (gen : GenRequest → Except GenError GenResult)
    (st : ChatCLI) (msg : String) : List Message :=
  match gen (mkRequest (pushUser st msg)) with
  | Except.ok r => r.responseMessages
  | Except.error _ => []

/-- Modelled from the spec: the internal step loop of the external
`generateText` call (the `ai` library, not part of this repository). Per
spec section 4.2 the call "may itself perform up to 10 internal rounds ...
before being forced to stop"; here `desired` is how many tool rounds the
scripted model would attempt, `done` the rounds completed so far, and the
loop stops as soon as the `stopWhen` condition holds. Returns the number of
rounds actually performed. -/
def runSteps (stopWhen : Nat → Bool) : Nat → Nat → Nat
  | 0, done => done
  | desired + 1, done =>
      if stopWhen done then done else runSteps stopWhen desired (done + 1)

/-- A generation oracle that behaves as the spec assumes: it returns the
text `ok` and a transcript that is exactly the sent messages extended with
one assistant message, hence a superset of what was sent. -/
def genSuperset : GenRequest → Except GenError GenResult :=
  fun req => Except.ok
    { text := "ok"
      responseMessages := req.messages ++ [{ role := Role.assistant, content := "ok" }]
      steps := [] }

/-- A generation oracle that succeeds with the given final text and a
superset transcript. -/
def genEcho (t : String) : GenRequest → Except GenError GenResult :=
  fun req => Except.ok
    { text := t
      responseMessages := req.messages ++ [{ role := Role.assistant, content := t }]
      steps := [] }

/-- A generation oracle that always throws a non-`Error` value. -/
def genFailNonError : GenRequest → Except GenError GenResult :=
  fun _ => Except.error GenError.nonError

/-- A generation oracle that always throws an `Error` instance with the
given message. -/
def genFailError (msg : String) : GenRequest → Except GenError GenResult :=
  fun _ => Except.error (GenError.errorInstance msg)

/-- A generation oracle that succeeds but produces no final text. -/
def genEmptyText : GenRequest → Except GenError GenResult :=
  fun _ => Except.ok { text := "", responseMessages := [], steps := [] }

/-- A freshly constructed session state. -/
def st0 : ChatCLI := mkChatCLI "k" false

/-- A session state whose MCP connection attempt succeeded. -/
def stWithClient : ChatCLI := { mkChatCLI "k" false with mcpClient := some () }

/-- A step reporting exactly one successful tool result and no tool calls. -/
def stepSilent : Step :=
  { toolCalls := [], toolResults := [{ outputIsError := false, output := "payload" }] }

/-- A step reporting one tool call, one errored tool result and one
successful tool result. -/
def stepFull : Step :=
  { toolCalls := [{ toolName := "search", args := "a1" }]
    toolResults := [{ outputIsError := true, output := "ep" },
      { outputIsError := false, output := "fine" }] }

theorem runSends_snoc (gen : GenRequest → Except GenError GenResult)
    (st : ChatCLI) (msgs : List String) (m : String) :
    runSends gen st (msgs ++ [m]) = (sendMessage gen (runSends gen st msgs) m).1 := by
  induction msgs generalizing st with
  | nil => rfl
  | cons x xs ih => simp [runSends, ih]

theorem unknown_not_error_prefixed :
    ¬ ∃ rest : String, "An unknown error occurred." = "Error: " ++ rest := by
  rintro ⟨⟨cs⟩, h⟩
  have h2 : ("An unknown error occurred.").data = ("Error: " ++ String.mk cs).data :=
    congrArg String.data h
  simp [String.data] at h2

/-- C1 counterexample: with a superset-respecting oracle, after two
successful turns the transcript of each call extends the messages that were
sent, the history has length 4 (the length of the second transcript), but
the cumulative count of messages in the two transcripts is 6, so the
claimed equality between the history length and the cumulative count
fails. -/
theorem history_cumulative_count_cex :
    (transcriptOf genSuperset st0 "hi" =
      (mkRequest (pushUser st0 "hi")).messages ++
        [{ role := Role.assistant, content := "ok" }])
    ∧ (transcriptOf genSuperset (sendMessage genSuperset st0 "hi").1 "there" =
      (mkRequest (pushUser (sendMessage genSuperset st0 "hi").1 "there")).messages ++
        [{ role := Role.assistant, content := "ok" }])
    ∧ (sendMessage genSuperset
        (sendMessage genSuperset st0 "hi").1 "there").1.conversationHistory.length = 4
    ∧ (transcriptOf genSuperset st0 "hi").length
        + (transcriptOf genSuperset (sendMessage genSuperset st0 "hi").1 "there").length = 6
    ∧ (sendMessage genSuperset
        (sendMessage genSuperset st0 "hi").1 "there").1.conversationHistory.length ≠
      (transcriptOf genSuperset st0 "hi").length
        + (transcriptOf genSuperset (sendMessage genSuperset st0 "hi").1 "there").length := by
  exact ⟨rfl, rfl, rfl, rfl, by decide⟩

/-- C1 (amended): for every successful call to `sendMessage` the entire
in-memory history is replaced wholesale by the transcript embedded in the
response, so after any sequence of turns whose last (n-th) call succeeds
with transcript `r.responseMessages`, the history equals that transcript
and its length equals that transcript's length — the length of the n-th
transcript, not the cumulative count over the first n calls. -/
theorem history_replaced_by_last_transcript
    (gen : GenRequest → Except GenError GenResult) (st : ChatCLI)
    (msgs : List String) (m : String) (r : GenResult)
    (h : gen (mkRequest (pushUser (runSends gen st msgs) m)) = Except.ok r) :
    (runSends gen st (msgs ++ [m])).conversationHistory = r.responseMessages
    ∧ (runSends gen st (msgs ++ [m])).conversationHistory.length
        = r.responseMessages.length := by
  rw [runSends_snoc]
  refine ⟨?_, ?_⟩ <;> simp [sendMessage, h]

/-- C1 witness: the amended theorem applied to a concrete two-turn run. -/
theorem history_replaced_by_last_transcript_witness :
    (runSends genSuperset st0 (["hi"] ++ ["there"])).conversationHistory =
      [{ role := Role.user, content := "hi" },
        { role := Role.assistant, content := "ok" },
        { role := Role.user, content := "there" },
        { role := Role.assistant, content := "ok" }]
    ∧ (runSends genSuperset st0 (["hi"] ++ ["there"])).conversationHistory.length = 4 :=
  have h := history_replaced_by_last_transcript genSuperset st0 ["hi"] "there"
    { text := "ok"
      responseMessages :=
        [{ role := Role.user, content := "hi" },
          { role := Role.assistant, content := "ok" },
          { role := Role.user, content := "there" },
          { role := Role.assistant, content := "ok" }]
      steps := [] } rfl
  ⟨h.1, h.2.trans rfl⟩

/-- C2 counterexample: when the generation call throws a non-`Error` value,
`sendMessage` returns the literal `An unknown error occurred.`, which does
not carry the distinguishing `Error: ` prefix, and which is string-identical
to what a successful call whose assistant text happens to be that sentence
would return — so the failure reply is not distinguishable from normal
assistant text by any prefix. -/
theorem error_reply_prefix_cex :
    (sendMessage genFailNonError st0 "hi").2.1 = "An unknown error occurred."
    ∧ ¬ (∃ rest : String,
        (sendMessage genFailNonError st0 "hi").2.1 = "Error: " ++ rest)
    ∧ (sendMessage (genEcho "An unknown error occurred.") st0 "hi").2.1 =
        "An unknown error occurred." := by
  refine ⟨rfl, ?_, rfl⟩
  have h : (sendMessage genFailNonError st0 "hi").2.1 = "An unknown error occurred." := rfl
  rw [h]
  exact unknown_not_error_prefixed

/-- C2 (amended): if the generation call fails the failure is caught and
`sendMessage` returns a human-readable error string in place of the
assistant's reply — prefixed `Error: ` when the thrown value is an `Error`
instance, and the unprefixed literal `An unknown error occurred.` for a
non-`Error` value; the just-appended user message remains in history (no
rollback), and the loop iteration that issued the call does not exit, close
the terminal input or close the tool transport, so the next turn is still
servable. -/
theorem generation_failure_behavior
    (gen : GenRequest → Except GenError GenResult) (st : ChatCLI)
    (m : String) (e : GenError)
    (h : gen (mkRequest (pushUser st m)) = Except.error e) :
    (sendMessage gen st m).1.conversationHistory =
      st.conversationHistory ++ [{ role := Role.user, content := m }]
    ∧ (∀ msg, e = GenError.errorInstance msg →
        (sendMessage gen st m).2.1 = "Error: " ++ msg
        ∧ ∃ rest, (sendMessage gen st m).2.1 = "Error: " ++ rest)
    ∧ (e = GenError.nonError →
        (sendMessage gen st m).2.1 = "An unknown error occurred.")
    ∧ (jsTrim m = m → m ≠ "" → jsToLower m ≠ "exit" → jsToLower m ≠ "quit" →
        (loopIter gen st m).exited = false
        ∧ (loopIter gen st m).rlClosed = false
        ∧ (loopIter gen st m).mcpClosed = false
        ∧ (loopIter gen st m).state.conversationHistory =
            st.conversationHistory ++ [{ role := Role.user, content := m }]) := by
  have hhist : (sendMessage gen st m).1.conversationHistory =
      st.conversationHistory ++ [{ role := Role.user, content := m }] := by
    simp only [sendMessage, h]
    simp [pushUser]
  refine ⟨hhist, ?_, ?_, ?_⟩
  · rintro msg rfl
    exact ⟨by simp [sendMessage, h], msg, by simp [sendMessage, h]⟩
  · rintro rfl
    simp [sendMessage, h]
  · intro htrim hne hexit hquit
    have hcond : ¬ (jsToLower (jsTrim m) = "exit" ∨ jsToLower (jsTrim m) = "quit") := by
      rw [htrim]; exact fun hc => hc.elim hexit hquit
    have hempty : ¬ (jsTrim m = "") := by rw [htrim]; exact hne
    refine ⟨?_, ?_, ?_, ?_⟩ <;>
      (simp only [loopIter, if_neg hcond, if_neg hempty]; try simp [htrim, hhist])

/-- C2 witness: the amended theorem applied to a concrete failing call. -/
theorem generation_failure_behavior_witness :
    (sendMessage (genFailError "boom") st0 "hi").1.conversationHistory =
      st0.conversationHistory ++ [{ role := Role.user, content := "hi" }]
    ∧ (sendMessage (genFailError "boom") st0 "hi").2.1 = "Error: " ++ "boom"
    ∧ (loopIter (genFailError "boom") st0 "hi").exited = false :=
  have h := generation_failure_behavior (genFailError "boom") st0 "hi"
    (GenError.errorInstance "boom") rfl
  ⟨h.1, (h.2.1 "boom" rfl).1,
    (h.2.2.2 rfl (by decide) (by decide) (by decide)).1⟩

/-- C10: if the generation call throws a value that is not an `Error`
instance, `sendMessage` returns the exact literal
`An unknown error occurred.`, which carries no `Error: ` prefix separating
it from normal assistant text — unlike the `Error: <message>` form returned
when an `Error` instance is thrown. -/
theorem unknown_error_literal
    (gen : GenRequest → Except GenError GenResult) (st : ChatCLI) (m : String)
    (h : gen (mkRequest (pushUser st m)) = Except.error GenError.nonError) :
    (sendMessage gen st m).2.1 = "An unknown error occurred."
    ∧ ¬ (∃ rest : String, (sendMessage gen st m).2.1 = "Error: " ++ rest)
    ∧ (∀ gen2 msg,
        gen2 (mkRequest (pushUser st m)) = Except.error (GenError.errorInstance msg) →
        (sendMessage gen2 st m).2.1 = "Error: " ++ msg) := by
  have hret : (sendMessage gen st m).2.1 = "An unknown error occurred." := by
    simp [sendMessage, h]
  refine ⟨hret, ?_, ?_⟩
  · rw [hret]; exact unknown_not_error_prefixed
  · intro gen2 msg h2
    simp [sendMessage, h2]

/-- C10 witness: the theorem applied to concrete failing calls. -/
theorem unknown_error_literal_witness :
    (sendMessage genFailNonError st0 "hey").2.1 = "An unknown error occurred."
    ∧ (sendMessage (genFailError "oops") st0 "hey").2.1 = "Error: " ++ "oops" :=
  have h := unknown_error_literal genFailNonError st0 "hey" rfl
  ⟨h.1, h.2.2 (genFailError "oops") "oops" rfl⟩

/-- C3: for every loop iteration whose raw input line trims to the empty
string (empty or whitespace-only input), no generation call is issued, the
state — in particular the conversation history — is left unchanged, nothing
is printed or closed, and the loop does not exit. -/
theorem blank_input_skipped (gen : GenRequest → Except GenError GenResult)
    (st : ChatCLI) (raw : String) (h : jsTrim raw = "") :
    loopIter gen st raw =
      { state := st, output := [], rlClosed := false, mcpClosed := false
        genCalled := false, exited := false } := by
  simp only [loopIter]
  rw [h]
  rw [if_neg (by decide : ¬ (jsToLower "" = "exit" ∨ jsToLower "" = "quit"))]
  rw [if_pos rfl]

/-- C3 witness: the theorem applied to a whitespace-only input line. -/
theorem blank_input_skipped_witness :
    loopIter genSuperset st0 "   " =
      { state := st0, output := [], rlClosed := false, mcpClosed := false
        genCalled := false, exited := false } :=
  blank_input_skipped genSuperset st0 "   " (by decide)

/-- C4: a loop iteration exits (graceful shutdown) exactly when the trimmed
input is case-insensitively `exit` or `quit` — these are the sole control
commands; in that case no generation call is issued, the readline interface
is closed, the MCP transport is closed exactly when the client handle is
non-null, and the state is left unchanged. -/
theorem exit_quit_shutdown (gen : GenRequest → Except GenError GenResult)
    (st : ChatCLI) (raw : String) :
    ((loopIter gen st raw).exited = true ↔
      (jsToLower (jsTrim raw) = "exit" ∨ jsToLower (jsTrim raw) = "quit"))
    ∧ ((jsToLower (jsTrim raw) = "exit" ∨ jsToLower (jsTrim raw) = "quit") →
        (loopIter gen st raw).genCalled = false
        ∧ (loopIter gen st raw).rlClosed = true
        ∧ (loopIter gen st raw).mcpClosed = st.mcpClient.isSome
        ∧ (loopIter gen st raw).state = st) := by
  constructor
  · constructor
    · intro hex
      by_contra hc
      simp only [loopIter, if_neg hc] at hex
      by_cases he : jsTrim raw = ""
      · rw [if_pos he] at hex
        simp at hex
      · rw [if_neg he] at hex
        simp at hex
    · intro hc
      simp [loopIter, if_pos hc]
  · intro hc
    refine ⟨?_, ?_, ?_, ?_⟩ <;> simp [loopIter, if_pos hc]

/-- C4 witness: the theorem applied to the concrete input line `" QUIT "`
on a state with a live MCP client handle. -/
theorem exit_quit_shutdown_witness :
    (loopIter genSuperset stWithClient " QUIT ").exited = true
    ∧ (loopIter genSuperset stWithClient " QUIT ").genCalled = false
    ∧ (loopIter genSuperset stWithClient " QUIT ").rlClosed = true
    ∧ (loopIter genSuperset stWithClient " QUIT ").mcpClosed = true :=
  have h := exit_quit_shutdown genSuperset stWithClient " QUIT "
  have hc : jsToLower (jsTrim " QUIT ") = "exit" ∨ jsToLower (jsTrim " QUIT ") = "quit" :=
    Or.inr (by decide)
  ⟨h.1.mpr hc, (h.2 hc).1, (h.2 hc).2.1, ((h.2 hc).2.2.1).trans rfl⟩

/-- C5: on any failure of the MCP initialization whose thrown value is an
`Error` instance (network error, protocol error, auth rejection), a warning
line carrying the error message is logged, the tool mapping of the
resulting state is the empty mapping, and the session proceeds normally: a
subsequent conversational turn whose generation call succeeds with
non-empty text returns exactly that text. -/
theorem mcp_failure_recoverable (a : String) (d : Bool) (msg : String)
    (o : MCPOutcome)
    (ho : o = MCPOutcome.connectFailed (GenError.errorInstance msg)
        ∨ o = MCPOutcome.toolsFailed (GenError.errorInstance msg)) :
    ("Error: " ++ msg ++ "\n") ∈ (initMCP o (mkChatCLI a d)).2
    ∧ (initMCP o (mkChatCLI a d)).1.mcpTools = []
    ∧ (∀ gen r um,
        gen (mkRequest (pushUser (initMCP o (mkChatCLI a d)).1 um)) = Except.ok r →
        r.text ≠ "" →
        (sendMessage gen (initMCP o (mkChatCLI a d)).1 um).2.1 = r.text) := by
  have hmem : ("Error: " ++ msg ++ "\n") ∈ (initMCP o (mkChatCLI a d)).2 := by
    rcases ho with rfl | rfl <;> simp [initMCP, mcpFailureLogs]
  have htools : (initMCP o (mkChatCLI a d)).1.mcpTools = [] := by
    rcases ho with rfl | rfl <;> simp [initMCP, mkChatCLI]
  refine ⟨hmem, htools, ?_⟩
  intro gen r um hg ht
  simp [sendMessage, hg, ht]

/-- C5 witness: the theorem applied to a concrete connection failure and a
subsequent successful plain turn. -/
theorem mcp_failure_recoverable_witness :
    ("Error: " ++ "net down" ++ "\n") ∈
      (initMCP (MCPOutcome.connectFailed (GenError.errorInstance "net down"))
        (mkChatCLI "k" false)).2
    ∧ (initMCP (MCPOutcome.connectFailed (GenError.errorInstance "net down"))
        (mkChatCLI "k" false)).1.mcpTools = []
    ∧ (sendMessage (genEcho "hello")
        (initMCP (MCPOutcome.connectFailed (GenError.errorInstance "net down"))
          (mkChatCLI "k" false)).1 "hi").2.1 = "hello" :=
  have h := mcp_failure_recoverable "k" false "net down"
    (MCPOutcome.connectFailed (GenError.errorInstance "net down")) (Or.inl rfl)
  ⟨h.1, h.2.1,
    h.2.2 (genEcho "hello")
      { text := "hello"
        responseMessages := [{ role := Role.user, content := "hi" },
          { role := Role.assistant, content := "hello" }]
        steps := [] } "hi" rfl (by decide)⟩

theorem runSteps_le_of_le (desired done : Nat) (h : done ≤ MAX_STEPS) :
    runSteps (stepCountIs MAX_STEPS) desired done ≤ MAX_STEPS := by
  induction desired generalizing done with
  | zero => simpa [runSteps] using h
  | succ k ih =>
    simp only [runSteps]
    by_cases hd : stepCountIs MAX_STEPS done = true
    · rw [if_pos hd]
      exact h
    · rw [if_neg hd]
      apply ih
      have hne : done ≠ MAX_STEPS := by simpa [stepCountIs] using hd
      omega

/-- C6: every generation request `sendMessage` issues carries the stop
condition `stepCountIs MAX_STEPS` with `MAX_STEPS = 10`, so the spec-level
step loop run under that condition performs at most 10 tool rounds whatever
the scripted model would attempt, and a script attempting 11 rounds is
stopped after exactly 10 (the 11th round is never attempted). -/
theorem step_budget_ten (st : ChatCLI) (m : String) (desired : Nat) :
    MAX_STEPS = 10
    ∧ (mkRequest (pushUser st m)).stopWhen = stepCountIs MAX_STEPS
    ∧ runSteps ((mkRequest (pushUser st m)).stopWhen) desired 0 ≤ MAX_STEPS
    ∧ runSteps ((mkRequest (pushUser st m)).stopWhen) 11 0 = 10 := by
  refine ⟨rfl, rfl, ?_, rfl⟩
  have hw : (mkRequest (pushUser st m)).stopWhen = stepCountIs MAX_STEPS := rfl
  rw [hw]
  exact runSteps_le_of_le desired 0 (by decide)

theorem onStepFinish_unguarded (debugMode : Bool) (step : Step) :
    onStepFinish debugMode step =
      (step.toolCalls.map (fun call =>
        ["\n[Using tool: " ++ call.toolName ++ "]"] ++
          log debugMode ("[Args: " ++ call.args ++ "]"))).flatten ++
      (step.toolResults.map (fun result =>
        if result.outputIsError then
          ["[Tool failed]"] ++ log debugMode ("[Error: " ++ result.output ++ "]")
        else
          log debugMode "[Tool completed successfully]")).flatten := by
  cases hc : step.toolCalls <;> cases hr : step.toolResults <;>
    simp [onStepFinish, hc, hr]

theorem no_visible_success_lines (l : List ToolResult)
    (h : ∀ r ∈ l, r.outputIsError = false) :
    (l.map (fun result =>
      if result.outputIsError then
        ["[Tool failed]"] ++ log false ("[Error: " ++ result.output ++ "]")
      else
        log false "[Tool completed successfully]")).flatten = [] := by
  induction l with
  | nil => rfl
  | cons x xs ih =>
    have hx := h x (List.mem_cons_self x xs)
    have hxs : ∀ r ∈ xs, r.outputIsError = false := by
      intro r hr
      exact h r (List.mem_cons_of_mem x hr)
    have ih2 := ih hxs
    simp [log, hx, ih2]
    exact hxs

/-- C7 counterexample: a step reporting exactly one successful tool result
(and no tool calls) produces no console output at all outside debug mode —
so a reported tool result does not always yield a visible success-or-failure
notification. -/
theorem silent_success_result_cex :
    stepSilent.toolResults.length = 1 ∧ onStepFinish false stepSilent = [] :=
  ⟨rfl, rfl⟩

/-- C7 (amended): each proposed tool call produces a visible notification
naming the tool, with the serialized arguments printed only in debug mode;
each tool result flagged as errored produces a visible tool-failure
notification, with the serialized error payload additionally logged only in
debug mode; a successful tool result produces its success notification only
in debug mode — outside debug mode a step with no tool calls and only
successful results prints nothing. -/
theorem step_notifications (dbg : Bool) (step : Step) :
    (∀ c ∈ step.toolCalls,
      ("\n[Using tool: " ++ c.toolName ++ "]") ∈ onStepFinish dbg step)
    ∧ (dbg = true → ∀ c ∈ step.toolCalls,
        ("[Args: " ++ c.args ++ "]") ∈ onStepFinish dbg step)
    ∧ (∀ r ∈ step.toolResults, r.outputIsError = true →
        "[Tool failed]" ∈ onStepFinish dbg step)
    ∧ (dbg = true → ∀ r ∈ step.toolResults, r.outputIsError = true →
        ("[Error: " ++ r.output ++ "]") ∈ onStepFinish dbg step)
    ∧ (dbg = true → ∀ r ∈ step.toolResults, r.outputIsError = false →
        "[Tool completed successfully]" ∈ onStepFinish dbg step)
    ∧ (dbg = false → step.toolCalls = [] →
        (∀ r ∈ step.toolResults, r.outputIsError = false) →
        onStepFinish dbg step = []) := by
  rw [onStepFinish_unguarded]
  refine ⟨?_, ?_, ?_, ?_, ?_, ?_⟩
  · intro c hc
    apply List.mem_append_left
    exact List.mem_flatten.mpr ⟨_, List.mem_map_of_mem _ hc, by simp⟩
  · rintro rfl c hc
    apply List.mem_append_left
    exact List.mem_flatten.mpr ⟨_, List.mem_map_of_mem _ hc, by simp [log]⟩
  · intro r hr hre
    apply List.mem_append_right
    exact List.mem_flatten.mpr ⟨_, List.mem_map_of_mem _ hr, by simp [hre]⟩
  · rintro rfl r hr hre
    apply List.mem_append_right
    exact List.mem_flatten.mpr ⟨_, List.mem_map_of_mem _ hr, by simp [hre, log]⟩
  · rintro rfl r hr hre
    apply List.mem_append_right
    exact List.mem_flatten.mpr ⟨_, List.mem_map_of_mem _ hr, by simp [hre, log]⟩
  · rintro rfl hcalls hres
    rw [hcalls]
    simp only [List.map_nil, List.flatten_nil, List.nil_append]
    exact no_visible_success_lines step.toolResults hres

/-- C7 witness: the amended theorem applied in debug mode to a step with
one tool call, one errored result and one successful result. -/
theorem step_notifications_witness :
    ("\n[Using tool: " ++ "search" ++ "]") ∈ onStepFinish true stepFull
    ∧ ("[Args: " ++ "a1" ++ "]") ∈ onStepFinish true stepFull
    ∧ "[Tool failed]" ∈ onStepFinish true stepFull
    ∧ ("[Error: " ++ "ep" ++ "]") ∈ onStepFinish true stepFull
    ∧ "[Tool completed successfully]" ∈ onStepFinish true stepFull :=
  have h := step_notifications true stepFull
  ⟨h.1 { toolName := "search", args := "a1" } (by decide),
    h.2.1 rfl { toolName := "search", args := "a1" } (by decide),
    h.2.2.1 { outputIsError := true, output := "ep" } (by decide) rfl,
    h.2.2.2.1 rfl { outputIsError := true, output := "ep" } (by decide) rfl,
    h.2.2.2.2.1 rfl { outputIsError := false, output := "fine" } (by decide) rfl⟩

/-- C8: for every successful generation call, `sendMessage` returns the
literal fallback string when the response's final text is empty, and the
final text itself otherwise. -/
theorem fallback_text (gen : GenRequest → Except GenError GenResult)
    (st : ChatCLI) (m : String) (r : GenResult)
    (h : gen (mkRequest (pushUser st m)) = Except.ok r) :
    (sendMessage gen st m).2.1 =
      (if r.text = "" then "No response generated." else r.text) := by
  simp [sendMessage, h]

/-- C8 witness: the theorem applied to a call with no text and to a call
with text. -/
theorem fallback_text_witness :
    (sendMessage genEmptyText st0 "hi").2.1 = "No response generated."
    ∧ (sendMessage (genEcho "hello") st0 "hi").2.1 = "hello" :=
  have h1 := fallback_text genEmptyText st0 "hi"
    { text := "", responseMessages := [], steps := [] } rfl
  have h2 := fallback_text (genEcho "hello") st0 "hi"
    { text := "hello"
      responseMessages := [{ role := Role.user, content := "hi" },
        { role := Role.assistant, content := "hello" }]
      steps := [] } rfl
  ⟨h1.trans (by decide), h2.trans (by decide)⟩

theorem sendMessage_frame (gen : GenRequest → Except GenError GenResult)
    (st : ChatCLI) (m : String) :
    (sendMessage gen st m).1.mcpTools = st.mcpTools
    ∧ (sendMessage gen st m).1.mcpClient = st.mcpClient
    ∧ (sendMessage gen st m).1.debugMode = st.debugMode
    ∧ (sendMessage gen st m).1.apiKey = st.apiKey := by
  cases hg : gen (mkRequest (pushUser st m)) <;>
    (simp only [sendMessage, hg]; simp [pushUser])

theorem loopIter_frame (gen : GenRequest → Except GenError GenResult)
    (st : ChatCLI) (raw : String) :
    (loopIter gen st raw).state.mcpTools = st.mcpTools := by
  by_cases hc : jsToLower (jsTrim raw) = "exit" ∨ jsToLower (jsTrim raw) = "quit"
  · simp [loopIter, if_pos hc]
  · by_cases he : jsTrim raw = ""
    · simp [loopIter, if_neg hc, if_pos he]
    · simp only [loopIter, if_neg hc, if_neg he]
      exact (sendMessage_frame gen st (jsTrim raw)).1

theorem runLoop_frame (gen : GenRequest → Except GenError GenResult)
    (st : ChatCLI) (inputs : List String) :
    (runLoop gen st inputs).mcpTools = st.mcpTools := by
  induction inputs generalizing st with
  | nil => rfl
  | cons raw rest ih =>
    simp only [runLoop]
    by_cases hex : (loopIter gen st raw).exited = true
    · rw [if_pos hex]
      exact loopIter_frame gen st raw
    · rw [if_neg hex]
      exact (ih _).trans (loopIter_frame gen st raw)

theorem initMCP_tools (o : MCPOutcome) (a : String) (d : Bool) :
    (initMCP o (mkChatCLI a d)).1.mcpTools =
      (match o with
        | MCPOutcome.connected tools => tools
        | MCPOutcome.connectFailed _ => []
        | MCPOutcome.toolsFailed _ => []) := by
  cases o <;> simp [initMCP, mkChatCLI]

/-- C9: the tool mapping is assigned at most once, during initialization —
the discovered tool set on success, the constructor's empty mapping kept on
any failure — and no later operation changes it: `sendMessage`, a single
loop iteration and an entire loop run all leave `mcpTools` exactly as it
was. -/
theorem tools_frozen (gen : GenRequest → Except GenError GenResult)
    (st : ChatCLI) (m raw : String) (inputs : List String)
    (o : MCPOutcome) (a : String) (d : Bool) :
    (initMCP o (mkChatCLI a d)).1.mcpTools =
      (match o with
        | MCPOutcome.connected tools => tools
        | MCPOutcome.connectFailed _ => []
        | MCPOutcome.toolsFailed _ => [])
    ∧ (sendMessage gen st m).1.mcpTools = st.mcpTools
    ∧ (loopIter gen st raw).state.mcpTools = st.mcpTools
    ∧ (runLoop gen st inputs).mcpTools = st.mcpTools :=
  ⟨initMCP_tools o a d, (sendMessage_frame gen st m).1, loopIter_frame gen st raw,
    runLoop_frame gen st inputs⟩

end NexCLI
